import Mathlib

set_option linter.unusedVariables false

/-!
Shallow embedding of the proxy-topology reconciliation subsystem of
dockermc-cloud-manager (Go): the data model (`internal/models`), the
registries (`internal/database`), the Docker runtime calls used by the
service layer (`internal/service/docker.go`), and the two services
(`internal/service/minecraft.go`, proxy service).  The Docker daemon and
the relational store are modelled as explicit state (`World`); every
runtime call that can fail in Go is given a failure-injection flag in the
state so that the error branches of the source are reachable in the model.
Reads are pure; mutations thread the `World` and append to an event trace.
-/

namespace DockerMC

/-! ## Data model (internal/models) -/

/-- `models.ContainerStatus` (server lifecycle state). -/
inductive ContainerStatus
  | creating
  | running
  | stopped
  | error
deriving DecidableEq

/-- `models.ProxyStatus`. -/
inductive ProxyStatus
  | creating
  | running
  | stopped
  | error
deriving DecidableEq

/-- `models.MinecraftServer` (timestamps and soft-delete column omitted:
rows are removed from the list on delete, matching the default-scoped
queries the services use). -/
structure MinecraftServer where
  id : String
  name : String
  containerID : String
  volumeID : String
  status : ContainerStatus
  port : Nat
  maxPlayers : Nat
  motd : String
deriving DecidableEq

/-- `models.ProxyServer`. -/
structure ProxyServer where
  id : String
  name : String
  containerID : String
  volumeID : String
  defaultServerID : String
  status : ProxyStatus
  port : Nat
deriving DecidableEq

/-- `models.SingleProxyID`. -/
def SingleProxyID : String := "main-proxy"

/-- `models.CreateServerRequest`. -/
structure CreateServerRequest where
  name : String
  maxPlayers : Nat
  motd : String
  version : String
deriving DecidableEq

/-! ## Docker runtime model -/

/-- A container as the Docker daemon sees it.  `networks` maps a network
name to the alias list of this container's endpoint on that network
(`NetworkSettings.Networks`).  `velocityToml` is the content of the file
`/server/velocity.toml` when it has been written by the config-deploy
exec, `none` otherwise. -/
structure DockerContainer where
  id : String
  name : String
  image : String
  env : List String
  cmd : List String
  running : Bool
  restarting : Bool
  dead : Bool
  oomKilled : Bool
  networks : List (String × List String)
  velocityToml : Option String
deriving DecidableEq

/-- `service.ContainerState`, the snapshot returned by
`DockerService.GetContainerState`. -/
structure ContainerState where
  existsFlag : Bool
  running : Bool
  restarting : Bool
  dead : Bool
  oomKilled : Bool
deriving DecidableEq

/-- The Docker daemon state, with one failure-injection flag per fallible
runtime call so the source's error branches are reachable. -/
structure DockerState where
  volumes : List String
  images : List String
  containers : List DockerContainer
  networks : List String
  nextCtr : Nat
  volumeCreateFails : Bool
  pullFails : Bool
  networkListFails : Bool
  networkCreateFails : Bool
  containerCreateFails : Bool
  containerStartFails : Bool
  containerStopFails : Bool
  containerRemoveFails : Bool
  volumeRemoveFails : Bool
  networkConnectFails : Bool
  inspectFails : Bool
  execFails : Bool
  waitFails : Bool
deriving DecidableEq

/-- The relational store: one table per model (`internal/database`). -/
structure Database where
  servers : List MinecraftServer
  proxies : List ProxyServer
deriving DecidableEq

/-- Mutating effects, recorded in order of execution. -/
inductive Ev
  | volumeCreate (name : String)
  | volumeRemove (name : String)
  | pullImage (image : String)
  | containerCreate (id : String)
  | containerStart (id : String)
  | containerStop (id : String)
  | containerRemove (id : String)
  | networkCreate (name : String)
  | networkConnect (net ctr : String)
  | execWrite (ctr : String)
  | dbCreateServer (id : String)
  | dbUpdateServer (id : String)
  | dbDeleteServer (id : String)
  | dbCreateProxy (id : String)
  | dbUpdateProxy (id : String)
deriving DecidableEq

/-- The whole mutable state: Docker daemon, database, UUID source and the
trace of mutating effects. -/
structure World where
  docker : DockerState
  db : Database
  nextUuid : Nat
  trace : List Ev
deriving DecidableEq

/-- Go `error` values: a not-found lookup miss, a uniqueness conflict
from the store, a failed runtime call, or a `fmt.Errorf("...: %w", err)`
wrapper. -/
inductive Err
  | notFound (msg : String)
  | conflict (msg : String)
  | docker (op : String)
  | wrap (msg : String) (e : Err)
deriving DecidableEq

instance {e a : Type} [DecidableEq e] [DecidableEq a] : DecidableEq (Except e a) := fun x y =>
  match x, y with
  | .ok u, .ok v =>
      if h : u = v then .isTrue (by rw [h]) else .isFalse (by intro hc; cases hc; exact h rfl)
  | .error u, .error v =>
      if h : u = v then .isTrue (by rw [h]) else .isFalse (by intro hc; cases hc; exact h rfl)
  | .ok _, .error _ => .isFalse (by intro hc; cases hc)
  | .error _, .ok _ => .isFalse (by intro hc; cases hc)

def World.emit (w : World) (e : Ev) : World :=
  { w with trace := w.trace ++ [e] }

/-! ## Docker primitives (client calls) -/

/-- `client.VolumeCreate`: creating an already-existing named volume
succeeds and returns the existing volume. -/
def volumeCreate (w : World) (name : String) : World × Except Err String :=
  if w.docker.volumeCreateFails then
    (w, .error (.docker "volume create"))
  else
    let vols := if w.docker.volumes.contains name then w.docker.volumes
                else w.docker.volumes ++ [name]
    (({ w with docker := { w.docker with volumes := vols } }).emit (.volumeCreate name),
     .ok name)

/-- `client.VolumeRemove` (force). -/
def volumeRemove (w : World) (name : String) : World × Except Err Unit :=
  if w.docker.volumeRemoveFails then
    (w, .error (.docker "volume remove"))
  else if w.docker.volumes.contains name then
    (({ w with docker := { w.docker with volumes := w.docker.volumes.filter (· ≠ name) } }).emit
       (.volumeRemove name),
     .ok ())
  else
    (w, .error (.docker "no such volume"))

/-- `DockerService.PullImage`: skips the pull when the image is already
present locally (`ImageInspectWithRaw` succeeds). -/
def pullImage (w : World) (image : String) : World × Except Err Unit :=
  if w.docker.images.contains image then
    (w, .ok ())
  else if w.docker.pullFails then
    (w, .error (.wrap ("failed to pull image " ++ image) (.docker "image pull")))
  else
    (({ w with docker := { w.docker with images := w.docker.images ++ [image] } }).emit
       (.pullImage image),
     .ok ())

/-- `client.NetworkList` (a read; fallible). -/
def networkList (w : World) : Except Err (List String) :=
  if w.docker.networkListFails then .error (.docker "network list")
  else .ok w.docker.networks

/-- `client.NetworkCreate` (bridge driver). -/
def networkCreate (w : World) (name : String) : World × Except Err Unit :=
  if w.docker.networkCreateFails then
    (w, .error (.docker "network create"))
  else
    (({ w with docker := { w.docker with networks := w.docker.networks ++ [name] } }).emit
       (.networkCreate name),
     .ok ())

def findContainer (w : World) (cid : String) : Option DockerContainer :=
  w.docker.containers.find? (fun c => c.id == cid)

/-- Update the container with the given id (container ids are unique in
the daemon, so updating the first match models update-by-id). -/
def updateByID : List DockerContainer → String → (DockerContainer → DockerContainer) →
    List DockerContainer
  | [], _, _ => []
  | c :: cs, cid, f => if c.id == cid then f c :: cs else c :: updateByID cs cid f

/-- Remove the container with the given id (ids are unique). -/
def removeByID : List DockerContainer → String → List DockerContainer
  | [], _ => []
  | c :: cs, cid => if c.id == cid then cs else c :: removeByID cs cid

/-- `client.ContainerCreate`: allocates a fresh container id; the
container starts out stopped, holding the endpoints given at creation. -/
def containerCreate (w : World) (name image : String) (env cmd : List String)
    (networks : List (String × List String)) : World × Except Err String :=
  if w.docker.containerCreateFails then
    (w, .error (.docker "container create"))
  else
    let cid := "ctr-" ++ toString w.docker.nextCtr
    let c : DockerContainer :=
      { id := cid, name := name, image := image, env := env, cmd := cmd,
        running := false, restarting := false, dead := false, oomKilled := false,
        networks := networks, velocityToml := none }
    (({ w with docker := { w.docker with
          containers := c :: w.docker.containers,
          nextCtr := w.docker.nextCtr + 1 } }).emit (.containerCreate cid),
     .ok cid)

def updateContainer (w : World) (cid : String) (f : DockerContainer → DockerContainer) : World :=
  { w with docker := { w.docker with containers := updateByID w.docker.containers cid f } }

/-- `client.ContainerStart`. -/
def containerStart (w : World) (cid : String) : World × Except Err Unit :=
  if w.docker.containerStartFails then
    (w, .error (.docker "container start"))
  else if (findContainer w cid).isSome then
    ((updateContainer w cid (fun c => { c with running := true })).emit (.containerStart cid),
     .ok ())
  else
    (w, .error (.docker "no such container"))

/-- `client.ContainerStop` (bounded grace period; the timeout value does
not affect the resulting state). -/
def containerStop (w : World) (cid : String) : World × Except Err Unit :=
  if w.docker.containerStopFails then
    (w, .error (.docker "container stop"))
  else if (findContainer w cid).isSome then
    ((updateContainer w cid (fun c => { c with running := false })).emit (.containerStop cid),
     .ok ())
  else
    (w, .error (.docker "no such container"))

/-- `client.ContainerRemove` (force). -/
def containerRemove (w : World) (cid : String) : World × Except Err Unit :=
  if w.docker.containerRemoveFails then
    (w, .error (.docker "container remove"))
  else if (findContainer w cid).isSome then
    (({ w with docker := { w.docker with
          containers := removeByID w.docker.containers cid } }).emit (.containerRemove cid),
     .ok ())
  else
    (w, .error (.docker "no such container"))

/-- `client.ContainerInspect` (a read; fallible). -/
def containerInspect (w : World) (cid : String) : Except Err DockerContainer :=
  if w.docker.inspectFails then .error (.docker "container inspect")
  else
    match findContainer w cid with
    | some c => .ok c
    | none => .error (.docker "no such container")

/-- `DockerService.GetContainerState`: an empty handle or a failed
inspect both yield a snapshot with `existsFlag = false`; this function
never returns an error in the source. -/
def getContainerState (w : World) (cid : String) : ContainerState :=
  if cid = "" then
    { existsFlag := false, running := false, restarting := false, dead := false,
      oomKilled := false }
  else
    match containerInspect w cid with
    | .error _ =>
        { existsFlag := false, running := false, restarting := false, dead := false,
          oomKilled := false }
    | .ok c =>
        { existsFlag := true, running := c.running, restarting := c.restarting,
          dead := c.dead, oomKilled := c.oomKilled }

/-- `client.NetworkConnect`: appends an endpoint with the given aliases
to the container's attachments. -/
def networkConnect (w : World) (net cid : String) (aliases : List String) :
    World × Except Err Unit :=
  if w.docker.networkConnectFails then
    (w, .error (.docker "network connect"))
  else if ¬ w.docker.networks.contains net then
    (w, .error (.docker "no such network"))
  else if (findContainer w cid).isSome then
    ((updateContainer w cid (fun c => { c with networks := c.networks ++ [(net, aliases)] })).emit
       (.networkConnect net cid),
     .ok ())
  else
    (w, .error (.docker "no such container"))

/-- `client.ContainerWait` until not-running (used for the disposable
patch-writer container). -/
def containerWait (w : World) (_cid : String) : World × Except Err Unit :=
  if w.docker.waitFails then (w, .error (.docker "container wait"))
  else (w, .ok ())

/-! ## Repositories (internal/database) -/

def findServerByID (db : Database) (id : String) : Option MinecraftServer :=
  db.servers.find? (fun s => s.id == id)

/-- `ServerRepository.FindByID`. -/
def serverRepoFindByID (db : Database) (id : String) : Except Err MinecraftServer :=
  match findServerByID db id with
  | some s => .ok s
  | none => .error (.notFound "server not found")

/-- `ServerRepository.FindAll`. -/
def serverRepoFindAll (db : Database) : Except Err (List MinecraftServer) :=
  .ok db.servers

/-- `ServerRepository.Create`: the store enforces primary-key and
unique-name (I2) constraints. -/
def serverRepoCreate (w : World) (s : MinecraftServer) : World × Except Err Unit :=
  if w.db.servers.any (fun r => r.id == s.id || r.name == s.name) then
    (w, .error (.conflict "UNIQUE constraint failed"))
  else
    (({ w with db := { w.db with servers := w.db.servers ++ [s] } }).emit (.dbCreateServer s.id),
     .ok ())

/-- `ServerRepository.Update` (`gorm.Save`: replace by primary key,
insert when absent). -/
def serverRepoUpdate (w : World) (s : MinecraftServer) : World × Except Err Unit :=
  let w1 :=
    if (findServerByID w.db s.id).isSome then
      { w with db := { w.db with
          servers := w.db.servers.map (fun r => if r.id == s.id then s else r) } }
    else
      { w with db := { w.db with servers := w.db.servers ++ [s] } }
  (w1.emit (.dbUpdateServer s.id), .ok ())

/-- `ServerRepository.Delete`. -/
def serverRepoDelete (w : World) (id : String) : World × Except Err Unit :=
  if (findServerByID w.db id).isSome then
    (({ w with db := { w.db with servers := w.db.servers.filter (fun r => r.id ≠ id) } }).emit
       (.dbDeleteServer id),
     .ok ())
  else
    (w, .error (.notFound "server not found"))

def findProxyByID (db : Database) (id : String) : Option ProxyServer :=
  db.proxies.find? (fun p => p.id == id)

/-- `ProxyRepository.FindByID`. -/
def proxyRepoFindByID (db : Database) (id : String) : Except Err ProxyServer :=
  match findProxyByID db id with
  | some p => .ok p
  | none => .error (.notFound "proxy not found")

/-- `ProxyRepository.Create`. -/
def proxyRepoCreate (w : World) (p : ProxyServer) : World × Except Err Unit :=
  if w.db.proxies.any (fun r => r.id == p.id) then
    (w, .error (.conflict "UNIQUE constraint failed"))
  else
    (({ w with db := { w.db with proxies := w.db.proxies ++ [p] } }).emit (.dbCreateProxy p.id),
     .ok ())

/-- `ProxyRepository.Update` (`gorm.Save`). -/
def proxyRepoUpdate (w : World) (p : ProxyServer) : World × Except Err Unit :=
  let w1 :=
    if (findProxyByID w.db p.id).isSome then
      { w with db := { w.db with
          proxies := w.db.proxies.map (fun r => if r.id == p.id then p else r) } }
    else
      { w with db := { w.db with proxies := w.db.proxies ++ [p] } }
  (w1.emit (.dbUpdateProxy p.id), .ok ())

/-! ## ProxyService (the Topology Reconciler) -/

def MinecraftNetworkName : String := "minecraft-network"

def VelocityImage : String := "itzg/bungeecord:latest"

def DefaultProxyPort : Nat := 25565

/-- The fixed part of the Velocity TOML produced by
`generateVelocityConfig`, as a function of the rendered `[servers]`
section body and the rendered `try` property. -/
def velocityConfigTemplate (serversSection tryProperty : String) : String :=
  "# Velocity Configuration\n# Auto-generated by dockermc-cloud-manager\n\nconfig-version = \"2.7\"\n\nbind = \"0.0.0.0:25577\"\nmotd = \"<aqua>Minecraft Server Network</aqua>\"\nshow-max-players = 500\nonline-mode = true\nforce-key-authentication = false\n\n# Player information forwarding settings\nplayer-info-forwarding-mode = \"legacy\"\n\n[servers]"
    ++ serversSection
    ++ "\n\ntry = ["
    ++ tryProperty
    ++ "]\n\n[forced-hosts]\n\n[advanced]\ncompression-threshold = 256\ncompression-level = -1\nlogin-ratelimit = 3000\nconnection-timeout = 5000\nread-timeout = 30000\n\n[query]\nenabled = false\n"

/-- `ProxyService.generateVelocityConfig`. -/
def generateVelocityConfig (servers : List MinecraftServer) (defaultServer : String) : String :=
  let serverEntries :=
    servers.map (fun server => "\n" ++ server.name ++ " = \"" ++ server.name ++ ":25565\"")
  let tryList := servers.map (fun server => "\"" ++ server.name ++ "\"")
  let tryConfigProperty :=
    if defaultServer ≠ "" then "\"" ++ defaultServer ++ "\""
    else String.intercalate ", " tryList
  velocityConfigTemplate (String.join serverEntries) tryConfigProperty

/-- `ProxyService.ensureNetwork`. -/
def ensureNetwork (w : World) (networkName : String) : World × Except Err Unit :=
  match networkList w with
  | .error e => (w, .error e)
  | .ok nets =>
    if nets.contains networkName then (w, .ok ())
    else
      match networkCreate w networkName with
      | (w1, .error e) => (w1, .error e)
      | (w1, .ok _) => (w1, .ok ())

/-- `ProxyService.StartProxy`. -/
def startProxy (w : World) : World × Except Err Unit :=
  match proxyRepoFindByID w.db SingleProxyID with
  | .error e => (w, .error e)
  | .ok proxy =>
    match containerStart w proxy.containerID with
    | (w1, .error e) => (w1, .error (.wrap "failed to start container" e))
    | (w1, .ok _) => proxyRepoUpdate w1 { proxy with status := .running }

/-- `ProxyService.createProxy`. -/
def createProxy (w : World) : World × Except Err ProxyServer :=
  match volumeCreate w "mc-proxy-main" with
  | (w1, .error e) => (w1, .error (.wrap "failed to create volume" e))
  | (w1, .ok volName) =>
  match pullImage w1 VelocityImage with
  | (w2, .error e) =>
    let (w3, _) := volumeRemove w2 volName
    (w3, .error (.wrap "failed to pull image" e))
  | (w2, .ok _) =>
  match ensureNetwork w2 MinecraftNetworkName with
  | (w3, .error e) =>
    let (w4, _) := volumeRemove w3 volName
    (w4, .error (.wrap "failed to ensure network" e))
  | (w3, .ok _) =>
  match containerCreate w3 "mc-proxy-main" VelocityImage ["TYPE=VELOCITY", "MEMORY=512M"] []
      [(MinecraftNetworkName, ["velocity-proxy", "proxy"])] with
  | (w4, .error e) =>
    let (w5, _) := volumeRemove w4 volName
    (w5, .error (.wrap "failed to create container" e))
  | (w4, .ok respID) =>
  let proxy : ProxyServer :=
    { id := SingleProxyID, name := "Main Proxy", containerID := respID, volumeID := volName,
      defaultServerID := "", status := .creating, port := DefaultProxyPort }
  match proxyRepoCreate w4 proxy with
  | (w5, .error e) =>
    let (w6, _) := containerRemove w5 respID
    let (w7, _) := volumeRemove w6 volName
    (w7, .error (.wrap "failed to save proxy to database" e))
  | (w5, .ok _) =>
  match startProxy w5 with
  | (w6, .error e) => (w6, .error (.wrap "failed to start proxy" e))
  | (w6, .ok _) => (w6, .ok proxy)

/-- `ProxyService.EnsureProxyExists`. -/
def ensureProxyExists (w : World) : World × Except Err ProxyServer :=
  match proxyRepoFindByID w.db SingleProxyID with
  | .ok proxy => (w, .ok proxy)
  | .error _ => createProxy w

/-- `ProxyService.syncProxyState`.  `GetContainerState` never fails in
the source and the store update is total in the model, so the function
returns the corrected in-memory record together with the updated world
(the source's error return is vacuous here). -/
def syncProxyState (w : World) (proxy : ProxyServer) : World × ProxyServer :=
  let state := getContainerState w proxy.containerID
  let (newStatus, proxy1) :=
    if ¬ state.existsFlag then (ProxyStatus.stopped, { proxy with containerID := "" })
    else if state.running then (ProxyStatus.running, proxy)
    else if state.restarting then (ProxyStatus.creating, proxy)
    else if state.dead || state.oomKilled then (ProxyStatus.error, proxy)
    else (ProxyStatus.stopped, proxy)
  if newStatus ≠ proxy.status then
    let proxy2 := { proxy1 with status := newStatus }
    let (w1, _) := proxyRepoUpdate w proxy2
    (w1, proxy2)
  else (w, proxy1)

/-- `ProxyService.GetProxy`: read, then sync state before returning. -/
def getProxy (w : World) : World × Except Err ProxyServer :=
  match proxyRepoFindByID w.db SingleProxyID with
  | .error e => (w, .error e)
  | .ok proxy =>
    let (w1, proxy1) := syncProxyState w proxy
    (w1, .ok proxy1)

/-- `ProxyService.ConnectServerToProxy`. -/
def connectServerToProxy (w : World) (server : MinecraftServer) : World × Except Err Unit :=
  match ensureNetwork w MinecraftNetworkName with
  | (w1, .error e) => (w1, .error e)
  | (w1, .ok _) =>
    match containerInspect w1 server.containerID with
    | .error e => (w1, .error e)
    | .ok info =>
      if info.networks.any (fun nc => nc.1 == MinecraftNetworkName) then (w1, .ok ())
      else networkConnect w1 MinecraftNetworkName server.containerID [server.name]

/-- `ProxyService.writeConfigToContainer`: a remote `sh -c "cat > ..."`
exec inside the proxy container; exec requires a running container, and a
non-zero exit code is a hard error. -/
def writeConfigToContainer (w : World) (containerID config : String) : World × Except Err Unit :=
  match findContainer w containerID with
  | none => (w, .error (.wrap "failed to create exec" (.docker "no such container")))
  | some c =>
    if ¬ c.running then
      (w, .error (.wrap "failed to create exec" (.docker "container is not running")))
    else if w.docker.execFails then
      (w, .error (.docker "exec failed with non-zero exit code"))
    else
      ((updateContainer w containerID (fun c0 => { c0 with velocityToml := some config })).emit
         (.execWrite containerID),
       .ok ())

/-- `ProxyService.RegenerateProxyConfig`. -/
def regenerateProxyConfig (w : World) : World × Except Err Unit :=
  match proxyRepoFindByID w.db SingleProxyID with
  | .error e => (w, .error e)
  | .ok proxy =>
  match serverRepoFindAll w.db with
  | .error e => (w, .error e)
  | .ok servers =>
  match
    (if proxy.defaultServerID ≠ "" then
      match serverRepoFindByID w.db proxy.defaultServerID with
      | .error e => Except.error e
      | .ok server => Except.ok server.name
     else Except.ok "") with
  | .error e => (w, .error e)
  | .ok defaultServerName =>
    let config := generateVelocityConfig servers defaultServerName
    match writeConfigToContainer w proxy.containerID config with
    | (w1, .error e) => (w1, .error (.wrap "failed to write config to container" e))
    | (w1, .ok _) => (w1, .ok ())

/-! ## MinecraftServerService (the Lifecycle Controller) -/

/-- The patch definition staged in the instance's volume
(`createBungeeCordPatchFileInVolume`). -/
def patchContent : String :=
  "\x7b\n  \"file\": \"/data/spigot.yml\",\n  \"ops\": [\n    \x7b\n      \"$set\": \x7b\n        \"path\": \"$.settings.bungeecord\",\n        \"value\": true,\n        \"value-type\": \"bool\"\n      \x7d\n    \x7d\n  ]\n\x7d"

/-- The post-creation best-effort block of `CreateServer` (ensure the
proxy exists; if so connect the new instance to the shared network; if
that succeeded regenerate the routing config, discarding its result).
Every failure is swallowed: only the resulting state is kept. -/
def afterCreateSteps (w : World) (server : MinecraftServer) : World :=
  match ensureProxyExists w with
  | (w7, .error _) => w7
  | (w7, .ok _) =>
    match connectServerToProxy w7 server with
    | (w8, .error _) => w8
    | (w8, .ok _) => (regenerateProxyConfig w8).1

/-- `MinecraftServerService.createBungeeCordPatchFileInVolume`: writes
the patch file through a disposable alpine container; the deferred
removal of the disposable container runs on every exit path after its
creation. -/
def createBungeeCordPatchFileInVolume (w : World) (volumeName : String) :
    World × Except Err Unit :=
  match pullImage w "alpine:latest" with
  | (w1, .error e) => (w1, .error (.wrap "failed to pull alpine image" e))
  | (w1, .ok _) =>
  match containerCreate w1 "" "alpine:latest" []
      ["sh", "-c",
       "\nmkdir -p /data/patches && cat > /data/patches/bungeecord.json << 'PATCHEOF'\n"
         ++ patchContent ++ "\nPATCHEOF\n"] [] with
  | (w2, .error e) => (w2, .error (.wrap "failed to create temp container" e))
  | (w2, .ok tempID) =>
  match containerStart w2 tempID with
  | (w3, .error e) =>
    let (w4, _) := containerRemove w3 tempID
    (w4, .error (.wrap "failed to start temp container" e))
  | (w3, .ok _) =>
  match containerWait w3 tempID with
  | (w4, .error e) =>
    let (w5, _) := containerRemove w4 tempID
    (w5, .error (.wrap "error waiting for temp container" e))
  | (w4, .ok _) =>
    let (w5, _) := containerRemove w4 tempID
    (w5, .ok ())

/-- `MinecraftServerService.CreateServer`, with the proxy service wired
in (`SetProxyService` has been called, as in the server wiring). -/
def createServer (w : World) (req : CreateServerRequest) : World × Except Err MinecraftServer :=
  let serverID := "uuid-" ++ toString w.nextUuid
  let w0 := { w with nextUuid := w.nextUuid + 1 }
  let volumeName := "mc-server-" ++ serverID
  match volumeCreate w0 volumeName with
  | (w1, .error e) => (w1, .error (.wrap "failed to create volume" e))
  | (w1, .ok volName) =>
  let maxPlayers := if req.maxPlayers = 0 then 20 else req.maxPlayers
  let motd := if req.motd = "" then "Minecraft Server - " ++ req.name else req.motd
  let version := if req.version = "" then "LATEST" else req.version
  let imageName := "itzg/minecraft-server:latest"
  match pullImage w1 imageName with
  | (w2, .error e) =>
    let (w3, _) := volumeRemove w2 volName
    (w3, .error (.wrap "failed to pull image" e))
  | (w2, .ok _) =>
  let (w3, hasProxy) :=
    match ensureProxyExists w2 with
    | (w3, .ok _) => (w3, true)
    | (w3, .error _) => (w3, false)
  let env :=
    ["EULA=TRUE", "MAX_PLAYERS=" ++ toString maxPlayers, "MOTD=" ++ motd,
     "VERSION=" ++ version, "TYPE=PAPER"]
      ++ (if hasProxy then ["ONLINE_MODE=FALSE", "PATCH_DEFINITIONS=/data/patches"] else [])
  match containerCreate w3 ("mc-server-" ++ serverID) imageName env [] [] with
  | (w4, .error e) =>
    let (w5, _) := volumeRemove w4 volName
    (w5, .error (.wrap "failed to create container" e))
  | (w4, .ok respID) =>
  let server : MinecraftServer :=
    { id := serverID, name := req.name, containerID := respID, volumeID := volName,
      status := .creating, port := 0, maxPlayers := maxPlayers, motd := motd }
  match (if hasProxy then createBungeeCordPatchFileInVolume w4 volName else (w4, .ok ())) with
  | (w5, .error e) =>
    let (w6, _) := containerRemove w5 respID
    let (w7, _) := volumeRemove w6 volName
    (w7, .error (.wrap "failed to create patch file" e))
  | (w5, .ok _) =>
  match serverRepoCreate w5 server with
  | (w6, .error e) =>
    let (w7, _) := containerRemove w6 respID
    let (w8, _) := volumeRemove w7 volName
    (w8, .error (.wrap "failed to save server to database" e))
  | (w6, .ok _) =>
  (afterCreateSteps w6 server, .ok server)

/-- `MinecraftServerService.ListServers`. -/
def listServers (w : World) : World × Except Err (List MinecraftServer) :=
  (w, serverRepoFindAll w.db)

/-- `MinecraftServerService.GetServer`: a bare registry read. -/
def getServer (w : World) (id : String) : World × Except Err MinecraftServer :=
  (w, serverRepoFindByID w.db id)

/-- `MinecraftServerService.StartServer`. -/
def startServer (w : World) (id : String) : World × Except Err Unit :=
  match serverRepoFindByID w.db id with
  | .error e => (w, .error e)
  | .ok server =>
    match containerStart w server.containerID with
    | (w1, .error e) => (w1, .error (.wrap "failed to start container" e))
    | (w1, .ok _) => serverRepoUpdate w1 { server with status := .running }

/-- `MinecraftServerService.StopServer`. -/
def stopServer (w : World) (id : String) : World × Except Err Unit :=
  match serverRepoFindByID w.db id with
  | .error e => (w, .error e)
  | .ok server =>
    match containerStop w server.containerID with
    | (w1, .error e) => (w1, .error (.wrap "failed to stop container" e))
    | (w1, .ok _) => serverRepoUpdate w1 { server with status := .stopped }

/-- `MinecraftServerService.DeleteServer`: best-effort stop, then remove
container, volume, and finally the registry row. -/
def deleteServer (w : World) (id : String) : World × Except Err Unit :=
  match serverRepoFindByID w.db id with
  | .error e => (w, .error e)
  | .ok server =>
    let (w1, _) := containerStop w server.containerID
    match containerRemove w1 server.containerID with
    | (w2, .error e) => (w2, .error (.wrap "failed to remove container" e))
    | (w2, .ok _) =>
      match volumeRemove w2 server.volumeID with
      | (w3, .error e) => (w3, .error (.wrap "failed to remove volume" e))
      | (w3, .ok _) => serverRepoDelete w3 id

/-! ## Concrete states used as test fixtures -/

/-- A Docker daemon with nothing in it and no injected failures. -/
def baseDocker : DockerState :=
  { volumes := [], images := [], containers := [], networks := [], nextCtr := 0,
    volumeCreateFails := false, pullFails := false, networkListFails := false,
    networkCreateFails := false, containerCreateFails := false, containerStartFails := false,
    containerStopFails := false, containerRemoveFails := false, volumeRemoveFails := false,
    networkConnectFails := false, inspectFails := false, execFails := false, waitFails := false }

def baseWorld : World :=
  { docker := baseDocker, db := { servers := [], proxies := [] }, nextUuid := 0, trace := [] }

/-- The proxy's container, running and attached to the shared network. -/
def proxyCtr : DockerContainer :=
  { id := "ctr-p", name := "mc-proxy-main", image := VelocityImage,
    env := ["TYPE=VELOCITY", "MEMORY=512M"], cmd := [],
    running := true, restarting := false, dead := false, oomKilled := false,
    networks := [(MinecraftNetworkName, ["velocity-proxy", "proxy"])], velocityToml := none }

/-- The singleton proxy registry row, recorded as running. -/
def proxyRow : ProxyServer :=
  { id := SingleProxyID, name := "Main Proxy", containerID := "ctr-p",
    volumeID := "mc-proxy-main", defaultServerID := "", status := .running, port := 25565 }

/-- A steady state: proxy row and container present and running, shared
network and images in place, empty backend registry. -/
def readyWorld : World :=
  { baseWorld with
    db := { servers := [], proxies := [proxyRow] },
    docker := { baseDocker with
      volumes := ["mc-proxy-main"],
      images := [VelocityImage, "itzg/minecraft-server:latest", "alpine:latest"],
      containers := [proxyCtr], networks := [MinecraftNetworkName] } }

def alphaReq : CreateServerRequest :=
  { name := "alpha", maxPlayers := 0, motd := "", version := "" }

/-- A backend container attached to the shared network with a foreign
alias (attached outside of `ConnectServerToProxy`). -/
def strayCtr : DockerContainer :=
  { id := "ctr-x", name := "mc-server-x", image := "itzg/minecraft-server:latest",
    env := [], cmd := [], running := true, restarting := false, dead := false,
    oomKilled := false, networks := [(MinecraftNetworkName, ["other"])], velocityToml := none }

/-- A backend row recorded as running. -/
def serverAlpha : MinecraftServer :=
  { id := "sx", name := "alpha", containerID := "ctr-x", volumeID := "vx",
    status := .running, port := 0, maxPlayers := 20, motd := "" }

/-- World for the pre-attached-with-foreign-alias scenario. -/
def preAttachedWorld : World :=
  { baseWorld with
    docker := { baseDocker with containers := [strayCtr], networks := [MinecraftNetworkName] } }

/-- Proxy row whose default target references a row that does not exist. -/
def danglingRow : ProxyServer := { proxyRow with defaultServerID := "ghost" }

/-- World with a dangling default-target reference. -/
def danglingWorld : World :=
  { readyWorld with db := { servers := [serverAlpha], proxies := [danglingRow] } }

/-- World whose proxy row says running but whose proxy container has
been externally removed. -/
def removedCtrWorld : World :=
  { baseWorld with db := { servers := [], proxies := [proxyRow] } }

/-- World whose backend row says running but whose backend container has
been externally removed. -/
def staleRowWorld : World :=
  { baseWorld with db := { servers := [serverAlpha], proxies := [] } }

/-- A stopped, unattached backend container. -/
def stoppedCtr : DockerContainer := { strayCtr with running := false, networks := [] }

def serverAlphaStopped : MinecraftServer := { serverAlpha with status := .stopped }

/-- World in which starting `serverAlpha` succeeds: its container exists
and is stopped; the proxy is present and running with no deployed
config yet. -/
def startWorld : World :=
  { baseWorld with
    db := { servers := [serverAlphaStopped], proxies := [proxyRow] },
    docker := { baseDocker with
      containers := [stoppedCtr, proxyCtr], networks := [MinecraftNetworkName] } }

/-- Steady state that already holds a backend row named `alpha`. -/
def conflictWorld : World :=
  { readyWorld with db := { servers := [serverAlpha], proxies := [proxyRow] } }

/-- No proxy row; the backend image is present locally but any actual
image pull fails, so proxy provisioning cannot complete. -/
def pullFailWorld : World :=
  { baseWorld with
    docker := { baseDocker with images := ["itzg/minecraft-server:latest"], pullFails := true } }

/-- Proxy present, but the alpine image is absent and pulls fail, so the
patch-file step of `createServer` fails. -/
def patchFailWorld : World :=
  { readyWorld with
    docker := { readyWorld.docker with
      images := [VelocityImage, "itzg/minecraft-server:latest"], pullFails := true } }

/-! ## Spec-side descriptions (§6 routing document) -/

/-- The spec's description of the `[servers]` mapping: exactly one entry
per record, mapping the record's name to `name:25565`. -/
def specServersMapping (servers : List MinecraftServer) : List (String × String) :=
  servers.map (fun s => (s.name, s.name ++ ":25565"))

/-- The spec's description of the try list: the single default name when
a default is set (non-empty), else the full name list in input order. -/
def specTryList (servers : List MinecraftServer) (defaultName : String) : List String :=
  if defaultName ≠ "" then [defaultName] else servers.map (fun s => s.name)

/-- How one `[servers]` entry is rendered in the TOML body. -/
def renderServerEntry (p : String × String) : String :=
  "\n" ++ p.1 ++ " = \"" ++ p.2 ++ "\""

/-- How a try list is rendered in the TOML body. -/
def renderTryProperty (names : List String) : String :=
  String.intercalate ", " (names.map (fun n => "\"" ++ n ++ "\""))

/-! ## Theorems -/

/-- C1: for every list of backend records and every default name, the
generated routing document is the fixed template instantiated with,
first, exactly one `[servers]` entry per record mapping its name to
`name:25565` (in input order), and second, a try list that is the single
default name when the default is set (non-empty) and the full name list
in input order otherwise. -/
theorem generateVelocityConfig_servers_and_try (servers : List MinecraftServer)
    (defaultServer : String) :
    generateVelocityConfig servers defaultServer =
      velocityConfigTemplate
        (String.join ((specServersMapping servers).map renderServerEntry))
        (renderTryProperty (specTryList servers defaultServer)) := by
  have hentries :
      String.join (servers.map
        (fun server => "\n" ++ server.name ++ " = \"" ++ server.name ++ ":25565\"")) =
      String.join ((specServersMapping servers).map renderServerEntry) := by
    rw [specServersMapping, List.map_map]
    congr 1
    apply List.map_congr_left
    intro s _
    simp only [Function.comp_apply, renderServerEntry, String.append_assoc]
    rfl
  have htry :
      (if defaultServer ≠ "" then "\"" ++ defaultServer ++ "\""
       else String.intercalate ", " (servers.map (fun server => "\"" ++ server.name ++ "\""))) =
      renderTryProperty (specTryList servers defaultServer) := by
    by_cases h : defaultServer = ""
    · simp [h, renderTryProperty, specTryList, List.map_map, Function.comp_def]
    · simp only [h, ne_eq, not_false_eq_true, if_true, renderTryProperty, specTryList,
        List.map_cons, List.map_nil]
      rfl
  simp only [generateVelocityConfig]
  rw [hentries, htry]

/-- C2: when the singleton proxy row exists, `EnsureProxyExists` returns
that row with the whole state (runtime and registry, including the
effect trace) unchanged — no volume, network, container or registry
operation happens — and a second immediate call returns the same row
again with the state still unchanged. -/
theorem ensureProxyExists_idempotent (w : World) (p : ProxyServer)
    (h : findProxyByID w.db SingleProxyID = some p) :
    ensureProxyExists w = (w, .ok p) ∧
      ensureProxyExists (ensureProxyExists w).1 = (w, .ok p) := by
  have h1 : ensureProxyExists w = (w, .ok p) := by
    unfold ensureProxyExists proxyRepoFindByID
    rw [h]
  refine ⟨h1, ?_⟩
  rw [h1]
  exact h1

/-- C2 witness: in `readyWorld` the proxy row exists, and both calls
return it with the state unchanged. -/
theorem ensureProxyExists_idempotent_witness :
    findProxyByID readyWorld.db SingleProxyID = some proxyRow ∧
      ensureProxyExists readyWorld = (readyWorld, .ok proxyRow) ∧
      ensureProxyExists (ensureProxyExists readyWorld).1 = (readyWorld, .ok proxyRow) := by
  have h := ensureProxyExists_idempotent readyWorld proxyRow rfl
  exact ⟨rfl, h.1, h.2⟩

/-- C6: contrary to the claim (and to the backend documentation, which
says state is synced before every read), `GetServer` is a bare registry
read: on a row persisted as Running whose container no longer exists, it
returns the stale record unchanged and performs no correction. -/
theorem getServer_returns_stale_row :
    serverAlpha.status = .running ∧ serverAlpha.containerID = "ctr-x" ∧
      findContainer staleRowWorld "ctr-x" = none ∧
      getServer staleRowWorld "sx" = (staleRowWorld, .ok serverAlpha) :=
  ⟨rfl, rfl, rfl, rfl⟩

/-- C3 counterexample: a state whose proxy row has `defaultServerID`
set to an id with no backend row; `RegenerateProxyConfig` does not
succeed with the full try list — it propagates the not-found error and
deploys nothing. -/
theorem regenerateProxyConfig_dangling_counterexample :
    findProxyByID danglingWorld.db SingleProxyID = some danglingRow ∧
      danglingRow.defaultServerID = "ghost" ∧
      findServerByID danglingWorld.db "ghost" = none ∧
      regenerateProxyConfig danglingWorld =
        (danglingWorld, .error (.notFound "server not found")) :=
  ⟨rfl, rfl, rfl, by decide⟩

/-- C3 amended: whenever the proxy row's `defaultServerID` is set but no
backend row with that id exists, `RegenerateProxyConfig` fails with the
lookup's not-found error and leaves the state unchanged (the default is
treated as unset only when `defaultServerID` is empty). -/
theorem regenerateProxyConfig_dangling_default_errors (w : World) (p : ProxyServer)
    (hp : findProxyByID w.db SingleProxyID = some p)
    (hd : p.defaultServerID ≠ "")
    (hn : findServerByID w.db p.defaultServerID = none) :
    regenerateProxyConfig w = (w, .error (.notFound "server not found")) := by
  unfold regenerateProxyConfig proxyRepoFindByID serverRepoFindAll serverRepoFindByID
  rw [hp]
  simp [hd, hn]

/-- C3 amended witness: the dangling state of the counterexample
satisfies the hypotheses, and regeneration fails there. -/
theorem regenerateProxyConfig_dangling_default_errors_witness :
    regenerateProxyConfig danglingWorld =
      (danglingWorld, .error (.notFound "server not found")) :=
  regenerateProxyConfig_dangling_default_errors danglingWorld danglingRow rfl
    (by decide) rfl

/-- C9 counterexample: a backend container already attached to the
shared network with the single foreign alias `other`; the connect call
succeeds (idempotent no-op) but afterwards the container's alias on the
shared network is still `other`, not the instance's name. -/
theorem connectServerToProxy_foreign_alias_counterexample :
    serverAlpha.name = "alpha" ∧
      (connectServerToProxy preAttachedWorld serverAlpha).2 = .ok () ∧
      (connectServerToProxy preAttachedWorld serverAlpha).1 = preAttachedWorld ∧
      ((findContainer (connectServerToProxy preAttachedWorld serverAlpha).1
          serverAlpha.containerID).map
        (fun c => c.networks)) = some [(MinecraftNetworkName, ["other"])] ∧
      ["other"] ≠ [serverAlpha.name] :=
  ⟨rfl, rfl, by decide, by decide, by decide⟩

/-- Effects only the Topology Reconciler's operations produce
(provisioning, network wiring, config deployment, proxy-registry
writes); `start`, `stop` and `delete` of a backend emit none of these. -/
def reconcilerEv : Ev → Bool
  | .volumeCreate _ => true
  | .pullImage _ => true
  | .containerCreate _ => true
  | .networkCreate _ => true
  | .networkConnect _ _ => true
  | .execWrite _ => true
  | .dbCreateProxy _ => true
  | .dbUpdateProxy _ => true
  | _ => false

/-- The run from `w` to `w1` appended only non-reconciler effects. -/
def noReconcileFrom (w w1 : World) : Prop :=
  ∃ t, w1.trace = w.trace ++ t ∧ t.all (fun e => !reconcilerEv e) = true

theorem noReconcileFrom_refl (w : World) : noReconcileFrom w w :=
  ⟨[], by simp⟩

theorem noReconcileFrom_of_trace_eq (w w1 : World) (h : w1.trace = w.trace) :
    noReconcileFrom w w1 :=
  ⟨[], by simp [h]⟩

theorem noReconcileFrom_trans (w w1 w2 : World)
    (h1 : noReconcileFrom w w1) (h2 : noReconcileFrom w1 w2) : noReconcileFrom w w2 := by
  obtain ⟨t1, ht1, ha1⟩ := h1
  obtain ⟨t2, ht2, ha2⟩ := h2
  exact ⟨t1 ++ t2, by simp [ht2, ht1, List.append_assoc], by simp_all⟩

theorem noReconcileFrom_emit_of (w w1 : World) (e : Ev)
    (htr : w1.trace = w.trace) (he : reconcilerEv e = false) :
    noReconcileFrom w (w1.emit e) :=
  ⟨[e], by simp [World.emit, htr, he]⟩

theorem containerStart_noReconcile (w : World) (cid : String) :
    noReconcileFrom w (containerStart w cid).1 := by
  unfold containerStart
  by_cases h1 : w.docker.containerStartFails
  · simp only [h1, if_true]
    exact noReconcileFrom_refl w
  · by_cases h2 : (findContainer w cid).isSome
    · simp only [h1, h2, if_false, if_true, Bool.false_eq_true]
      exact noReconcileFrom_emit_of w _ _ rfl rfl
    · simp only [h1, h2, if_false, Bool.false_eq_true]
      exact noReconcileFrom_refl w

theorem containerStop_noReconcile (w : World) (cid : String) :
    noReconcileFrom w (containerStop w cid).1 := by
  unfold containerStop
  by_cases h1 : w.docker.containerStopFails
  · simp only [h1, if_true]
    exact noReconcileFrom_refl w
  · by_cases h2 : (findContainer w cid).isSome
    · simp only [h1, h2, if_false, if_true, Bool.false_eq_true]
      exact noReconcileFrom_emit_of w _ _ rfl rfl
    · simp only [h1, h2, if_false, Bool.false_eq_true]
      exact noReconcileFrom_refl w

theorem containerRemove_noReconcile (w : World) (cid : String) :
    noReconcileFrom w (containerRemove w cid).1 := by
  unfold containerRemove
  by_cases h1 : w.docker.containerRemoveFails
  · simp only [h1, if_true]
    exact noReconcileFrom_refl w
  · by_cases h2 : (findContainer w cid).isSome
    · simp only [h1, h2, if_false, if_true, Bool.false_eq_true]
      exact noReconcileFrom_emit_of w _ _ rfl rfl
    · simp only [h1, h2, if_false, Bool.false_eq_true]
      exact noReconcileFrom_refl w

theorem volumeRemove_noReconcile (w : World) (name : String) :
    noReconcileFrom w (volumeRemove w name).1 := by
  unfold volumeRemove
  by_cases h1 : w.docker.volumeRemoveFails
  · simp only [h1, if_true]
    exact noReconcileFrom_refl w
  · by_cases h2 : w.docker.volumes.contains name
    · simp only [h1, h2, if_false, if_true, Bool.false_eq_true]
      exact noReconcileFrom_emit_of w _ _ rfl rfl
    · simp only [h1, h2, if_false, Bool.false_eq_true]
      exact noReconcileFrom_refl w

theorem serverRepoUpdate_noReconcile (w : World) (s : MinecraftServer) :
    noReconcileFrom w (serverRepoUpdate w s).1 := by
  unfold serverRepoUpdate
  by_cases h : (findServerByID w.db s.id).isSome
  · simp only [h, if_true]
    exact noReconcileFrom_emit_of w _ _ rfl rfl
  · simp only [h, if_false, Bool.false_eq_true]
    exact noReconcileFrom_emit_of w _ _ rfl rfl

theorem serverRepoDelete_noReconcile (w : World) (id : String) :
    noReconcileFrom w (serverRepoDelete w id).1 := by
  unfold serverRepoDelete
  by_cases h : (findServerByID w.db id).isSome
  · simp only [h, if_true]
    exact noReconcileFrom_emit_of w _ _ rfl rfl
  · simp only [h, if_false, Bool.false_eq_true]
    exact noReconcileFrom_refl w

/-- C4 counterexample: a state in which starting `serverAlpha` succeeds
(a successful lifecycle mutation), yet afterwards its container is still
not attached to the shared network and the proxy container still has no
deployed routing file — the Topology Reconciler was not invoked. -/
theorem startServer_no_reconcile_counterexample :
    (startServer startWorld "sx").2 = .ok () ∧
      ((startServer startWorld "sx").1.docker.containers.map
        (fun c => (c.id, c.networks, c.velocityToml))) =
        [("ctr-x", [], none),
         ("ctr-p", [(MinecraftNetworkName, ["velocity-proxy", "proxy"])], none)] ∧
      (startServer startWorld "sx").1.trace =
        [.containerStart "ctr-x", .dbUpdateServer "sx"] :=
  ⟨by decide, by decide, by decide⟩

/-- C4 amended: of the lifecycle mutations only creation invokes the
Topology Reconciler; `StartServer`, `StopServer` and `DeleteServer`
perform the runtime operation and the registry write only — on every
state and id they emit no reconciler effect (no provisioning, network
wiring, config deployment, or proxy-registry write). -/
theorem lifecycle_non_create_no_reconcile (w : World) (id : String) :
    noReconcileFrom w (startServer w id).1 ∧
      noReconcileFrom w (stopServer w id).1 ∧
      noReconcileFrom w (deleteServer w id).1 := by
  refine ⟨?_, ?_, ?_⟩
  · unfold startServer
    cases hf : serverRepoFindByID w.db id with
    | error e => exact noReconcileFrom_refl w
    | ok server =>
      dsimp only
      rcases hcs : containerStart w server.containerID with ⟨w1, r⟩
      have hw1 : noReconcileFrom w w1 := by
        have := containerStart_noReconcile w server.containerID
        rwa [hcs] at this
      cases r with
      | error e => exact hw1
      | ok u =>
        exact noReconcileFrom_trans w w1 _ hw1
          (serverRepoUpdate_noReconcile w1 { server with status := .running })
  · unfold stopServer
    cases hf : serverRepoFindByID w.db id with
    | error e => exact noReconcileFrom_refl w
    | ok server =>
      dsimp only
      rcases hcs : containerStop w server.containerID with ⟨w1, r⟩
      have hw1 : noReconcileFrom w w1 := by
        have := containerStop_noReconcile w server.containerID
        rwa [hcs] at this
      cases r with
      | error e => exact hw1
      | ok u =>
        exact noReconcileFrom_trans w w1 _ hw1
          (serverRepoUpdate_noReconcile w1 { server with status := .stopped })
  · unfold deleteServer
    cases hf : serverRepoFindByID w.db id with
    | error e => exact noReconcileFrom_refl w
    | ok server =>
      dsimp only
      rcases hst : containerStop w server.containerID with ⟨w1, r1⟩
      have hw1 : noReconcileFrom w w1 := by
        have := containerStop_noReconcile w server.containerID
        rwa [hst] at this
      rcases hrm : containerRemove w1 server.containerID with ⟨w2, r2⟩
      have hw2 : noReconcileFrom w w2 := by
        have := containerRemove_noReconcile w1 server.containerID
        rw [hrm] at this
        exact noReconcileFrom_trans w w1 w2 hw1 this
      cases r2 with
      | error e => exact hw2
      | ok u =>
        dsimp only
        rcases hvr : volumeRemove w2 server.volumeID with ⟨w3, r3⟩
        have hw3 : noReconcileFrom w w3 := by
          have := volumeRemove_noReconcile w2 server.volumeID
          rw [hvr] at this
          exact noReconcileFrom_trans w w2 w3 hw2 this
        cases r3 with
        | error e => exact hw3
        | ok u =>
          exact noReconcileFrom_trans w w3 _ hw3 (serverRepoDelete_noReconcile w3 id)

/-- The claim's priority mapping from a runtime snapshot to the
corrected lifecycle state (first match wins). -/
def specSyncStatus (st : ContainerState) : ProxyStatus :=
  if ¬ st.existsFlag then .stopped
  else if st.running then .running
  else if st.restarting then .creating
  else if st.dead || st.oomKilled then .error
  else .stopped

/-- The corrected record: mapped status; the runtime handle is cleared
exactly when the runtime object no longer exists. -/
def specSyncedRecord (st : ContainerState) (p : ProxyServer) : ProxyServer :=
  { p with
    status := specSyncStatus st,
    containerID := if st.existsFlag then p.containerID else "" }

theorem syncProxyState_spec (w : World) (p : ProxyServer) :
    syncProxyState w p =
      (let st := getContainerState w p.containerID
       (if specSyncStatus st = p.status then w
        else (proxyRepoUpdate w (specSyncedRecord st p)).1,
       specSyncedRecord st p)) := by
  unfold syncProxyState specSyncStatus specSyncedRecord
  by_cases h1 : (getContainerState w p.containerID).existsFlag <;>
    by_cases h2 : (getContainerState w p.containerID).running <;>
    by_cases h3 : (getContainerState w p.containerID).restarting <;>
    by_cases h4 : ((getContainerState w p.containerID).dead ||
      (getContainerState w p.containerID).oomKilled) = true <;>
    simp [specSyncStatus, h1, h2, h3, h4] <;> split <;> simp_all

/-- C5: on every proxy read, the returned record carries the lifecycle
state computed from the runtime snapshot by the priority mapping
(not-exists → Stopped with the handle cleared; else running → Running;
else restarting → Provisioning; else dead/oomKilled → Failed; else
Stopped), and the registry is written exactly when the state changed. -/
theorem getProxy_syncs_state (w : World) (p : ProxyServer)
    (hp : findProxyByID w.db SingleProxyID = some p) :
    getProxy w =
      (let st := getContainerState w p.containerID
       (if specSyncStatus st = p.status then w
        else (proxyRepoUpdate w (specSyncedRecord st p)).1,
       .ok (specSyncedRecord st p))) := by
  unfold getProxy proxyRepoFindByID
  rw [hp]
  dsimp only
  rw [syncProxyState_spec]

/-- C5 witness: a row persisted as Running whose container was
externally removed is returned as Stopped with the handle cleared, and
the correction is persisted. -/
theorem getProxy_syncs_state_witness :
    findProxyByID removedCtrWorld.db SingleProxyID = some proxyRow ∧
      (getProxy removedCtrWorld).2 =
        .ok { proxyRow with status := .stopped, containerID := "" } ∧
      (getProxy removedCtrWorld).1.db.proxies =
        [{ proxyRow with status := .stopped, containerID := "" }] ∧
      (getProxy removedCtrWorld).1.trace = [.dbUpdateProxy SingleProxyID] := by
  have h := getProxy_syncs_state removedCtrWorld proxyRow rfl
  refine ⟨rfl, ?_, ?_, ?_⟩ <;> rw [h] <;> rfl

/-- The alias list a container carries on a given network, if attached. -/
def aliasesOn (c : DockerContainer) (net : String) : Option (List String) :=
  (c.networks.find? (fun nc => nc.1 == net)).map (fun nc => nc.2)

theorem find?_updateByID (l : List DockerContainer) (cid : String)
    (f : DockerContainer → DockerContainer) (hf : ∀ c, (f c).id = c.id) :
    (updateByID l cid f).find? (fun c => c.id == cid) =
      (l.find? (fun c => c.id == cid)).map f := by
  induction l with
  | nil => rfl
  | cons c cs ih =>
    by_cases h : (c.id == cid) = true
    · simp [updateByID, h, List.find?, hf c]
    · simp only [Bool.not_eq_true] at h
      simp [updateByID, h, List.find?, ih]

theorem find?_append_of_none {α : Type} (p : α → Bool) (l1 l2 : List α)
    (h : l1.find? p = none) : (l1 ++ l2).find? p = l2.find? p := by
  induction l1 with
  | nil => rfl
  | cons a l ih =>
    cases hpa : p a with
    | true =>
      rw [List.find?_cons_of_pos _ hpa] at h
      cases h
    | false =>
      rw [List.find?_cons_of_neg _ (by simp [hpa])] at h
      rw [List.cons_append, List.find?_cons_of_neg _ (by simp [hpa])]
      exact ih h

theorem find?_eq_none_of_any_eq_false {α : Type} (p : α → Bool) (l : List α)
    (h : l.any p = false) : l.find? p = none := by
  rw [List.find?_eq_none]
  intro x hx hpx
  rw [List.any_eq_false] at h
  exact h x hx hpx

theorem ensureNetwork_ok (w : World) (n : String)
    (hl : w.docker.networkListFails = false) (hnc : w.docker.networkCreateFails = false) :
    ∃ w1, ensureNetwork w n = (w1, .ok ()) ∧
      w1.docker.containers = w.docker.containers ∧
      w1.docker.networks.contains n = true ∧
      w1.docker.inspectFails = w.docker.inspectFails ∧
      w1.docker.networkConnectFails = w.docker.networkConnectFails ∧
      w1.db = w.db := by
  unfold ensureNetwork networkList networkCreate
  simp only [hl, hnc, Bool.false_eq_true, if_false]
  by_cases h : w.docker.networks.contains n = true
  · rw [if_pos h]
    exact ⟨w, rfl, rfl, h, rfl, rfl, rfl⟩
  · rw [if_neg h]
    refine ⟨_, rfl, rfl, ?_, rfl, rfl, rfl⟩
    simp [World.emit]

/-- C9 amended: if the backend container is not yet attached to the
shared network, a successful `ConnectServerToProxy` leaves it attached
there with exactly one alias equal to the instance's name; if it is
already attached (whatever its aliases), the call succeeds without
changing any container's attachments. -/
theorem connectServerToProxy_alias (w : World) (server : MinecraftServer)
    (c : DockerContainer)
    (hl : w.docker.networkListFails = false)
    (hnc : w.docker.networkCreateFails = false)
    (hcf : w.docker.networkConnectFails = false)
    (hin : w.docker.inspectFails = false)
    (hc : findContainer w server.containerID = some c) :
    (c.networks.any (fun nc => nc.1 == MinecraftNetworkName) = false →
      (connectServerToProxy w server).2 = .ok () ∧
      ((findContainer (connectServerToProxy w server).1 server.containerID).map
        (fun c0 => aliasesOn c0 MinecraftNetworkName)) = some (some [server.name])) ∧
    (c.networks.any (fun nc => nc.1 == MinecraftNetworkName) = true →
      (connectServerToProxy w server).2 = .ok () ∧
      (connectServerToProxy w server).1.docker.containers = w.docker.containers) := by
  obtain ⟨w1, hen, hcont, hnet, hinsp, hconnf, hdb⟩ :=
    ensureNetwork_ok w MinecraftNetworkName hl hnc
  have hfind1 : findContainer w1 server.containerID = some c := by
    unfold findContainer
    rw [hcont]
    exact hc
  have hins1 : containerInspect w1 server.containerID = .ok c := by
    unfold containerInspect
    rw [hinsp, hin, hfind1]
    simp
  constructor
  · intro hnotatt
    unfold connectServerToProxy
    rw [hen]
    dsimp only
    rw [hins1]
    dsimp only
    rw [hnotatt]
    unfold networkConnect
    rw [hconnf, hcf, hnet]
    simp only [Bool.false_eq_true, if_false, not_true_eq_false, if_true, hfind1,
      Option.isSome_some, if_pos]
    refine ⟨by trivial, ?_⟩
    unfold findContainer updateContainer World.emit
    dsimp only
    rw [find?_updateByID w1.docker.containers server.containerID
      (fun c => { c with networks := c.networks ++ [(MinecraftNetworkName, [server.name])] })
      (fun c0 => rfl)]
    unfold findContainer at hfind1
    rw [hfind1]
    simp only [Option.map_some']
    unfold aliasesOn
    dsimp only
    rw [find?_append_of_none _ _ _
      (find?_eq_none_of_any_eq_false _ _ hnotatt)]
    simp [List.find?]
  · intro hatt
    unfold connectServerToProxy
    rw [hen]
    dsimp only
    rw [hins1]
    dsimp only
    rw [hatt]
    exact ⟨rfl, hcont⟩

/-- C9 amended witness: connecting a fresh, unattached container
attaches it with exactly the alias `alpha`; the already-attached case is
exercised at the pre-attached state, where the call changes nothing. -/
theorem connectServerToProxy_alias_witness :
    ((connectServerToProxy startWorld serverAlphaStopped).2 = .ok () ∧
      ((findContainer (connectServerToProxy startWorld serverAlphaStopped).1
          serverAlphaStopped.containerID).map
        (fun c0 => aliasesOn c0 MinecraftNetworkName)) =
        some (some [serverAlphaStopped.name])) ∧
    ((connectServerToProxy preAttachedWorld serverAlpha).2 = .ok () ∧
      (connectServerToProxy preAttachedWorld serverAlpha).1.docker.containers =
        preAttachedWorld.docker.containers) := by
  constructor
  · exact (connectServerToProxy_alias startWorld serverAlphaStopped stoppedCtr rfl rfl rfl rfl
      rfl).1 (by decide)
  · exact (connectServerToProxy_alias preAttachedWorld serverAlpha strayCtr rfl rfl rfl rfl
      rfl).2 (by decide)

theorem filter_ne_of_contains_false (l : List String) (v : String)
    (h : l.contains v = false) : l.filter (fun x => x ≠ v) = l := by
  apply List.filter_eq_self.mpr
  intro a ha
  simp only [ne_eq, decide_eq_true_eq]
  intro he
  subst he
  rw [List.contains_eq_any_beq, List.any_eq_false] at h
  simpa using h a ha

theorem filter_ne_append_self (l : List String) (v : String)
    (h : l.contains v = false) : (l ++ [v]).filter (fun x => x ≠ v) = l := by
  rw [List.filter_append, filter_ne_of_contains_false l v h]
  simp

theorem createServer_rollback_pull_fail (w : World) (req : CreateServerRequest)
    (h1 : w.docker.volumeCreateFails = false)
    (h2 : w.docker.volumes.contains ("mc-server-" ++ ("uuid-" ++ toString w.nextUuid)) = false)
    (h3 : w.docker.images.contains "itzg/minecraft-server:latest" = false)
    (h4 : w.docker.pullFails = true)
    (h5 : w.docker.volumeRemoveFails = false) :
    (createServer w req).2.isOk = false ∧
      (createServer w req).1.docker.volumes = w.docker.volumes ∧
      (createServer w req).1.docker.containers = w.docker.containers ∧
      (createServer w req).1.db.servers = w.db.servers := by
  simp only [createServer, volumeCreate, pullImage, volumeRemove, World.emit,
    h1, h2, h3, h4, h5, Bool.false_eq_true, if_false, if_true,
    filter_ne_append_self _ _ h2]
  simp [Except.isOk, Except.toBool]

theorem createServer_rollback_create_fail (w : World) (req : CreateServerRequest) (p : ProxyServer)
    (h1 : w.docker.volumeCreateFails = false)
    (h2 : w.docker.volumes.contains ("mc-server-" ++ ("uuid-" ++ toString w.nextUuid)) = false)
    (hpf : w.docker.pullFails = false)
    (hproxy : findProxyByID w.db SingleProxyID = some p)
    (hcc : w.docker.containerCreateFails = true)
    (h5 : w.docker.volumeRemoveFails = false) :
    (createServer w req).2.isOk = false ∧
      (createServer w req).1.docker.volumes = w.docker.volumes ∧
      (createServer w req).1.docker.containers = w.docker.containers ∧
      (createServer w req).1.db.servers = w.db.servers := by
  by_cases himg : w.docker.images.contains "itzg/minecraft-server:latest" = true
  · simp only [createServer, volumeCreate, pullImage, volumeRemove, containerCreate,
      ensureProxyExists, proxyRepoFindByID, World.emit,
      h1, h2, hpf, himg, hproxy, hcc, h5, Bool.false_eq_true, if_false, if_true,
      filter_ne_append_self _ _ h2]
    simp [Except.isOk, Except.toBool]
  · simp only [Bool.not_eq_true] at himg
    simp only [createServer, volumeCreate, pullImage, volumeRemove, containerCreate,
      ensureProxyExists, proxyRepoFindByID, World.emit,
      h1, h2, hpf, himg, hproxy, hcc, h5, Bool.false_eq_true, if_false, if_true,
      filter_ne_append_self _ _ h2]
    simp [Except.isOk, Except.toBool]

theorem createServer_rollback_conflict (w : World) (req : CreateServerRequest) (p : ProxyServer)
    (h1 : w.docker.volumeCreateFails = false)
    (h2 : w.docker.volumes.contains ("mc-server-" ++ ("uuid-" ++ toString w.nextUuid)) = false)
    (himg : w.docker.images.contains "itzg/minecraft-server:latest" = true)
    (halp : w.docker.images.contains "alpine:latest" = true)
    (hproxy : findProxyByID w.db SingleProxyID = some p)
    (hcc : w.docker.containerCreateFails = false)
    (hcs : w.docker.containerStartFails = false)
    (hwt : w.docker.waitFails = false)
    (hcr : w.docker.containerRemoveFails = false)
    (h5 : w.docker.volumeRemoveFails = false)
    (hconf : w.db.servers.any
      (fun r => r.id == ("uuid-" ++ toString w.nextUuid) || r.name == req.name) = true) :
    (createServer w req).2 =
        .error (.wrap "failed to save server to database" (.conflict "UNIQUE constraint failed")) ∧
      (createServer w req).1.docker.volumes = w.docker.volumes ∧
      (createServer w req).1.docker.containers = w.docker.containers ∧
      (createServer w req).1.db.servers = w.db.servers := by
  simp only [createServer, volumeCreate, pullImage, volumeRemove, containerCreate,
    containerStart, containerWait, containerRemove, createBungeeCordPatchFileInVolume,
    serverRepoCreate, findContainer, updateContainer, updateByID, removeByID,
    ensureProxyExists, proxyRepoFindByID, World.emit, List.find?,
    h1, h2, himg, halp, hproxy, hcc, hcs, hwt, hcr, h5, hconf,
    beq_self_eq_true, Bool.false_eq_true, if_false, if_true, Option.isSome_some,
    filter_ne_append_self _ _ h2]
  simp [Except.isOk, Except.toBool]

/-- Empty state whose image pulls fail. -/
def emptyPullFailWorld : World :=
  { baseWorld with docker := { baseDocker with pullFails := true } }

/-- Steady state whose container creations fail. -/
def createFailWorld : World :=
  { readyWorld with docker := { readyWorld.docker with containerCreateFails := true } }

/-- C7: backend-instance creation is all-or-nothing up to the
post-creation steps.  If the image pull fails, the created volume is
removed and no row or container exists; if container creation fails,
likewise; if persisting the row fails with the uniqueness Conflict, both
the container and the volume (and the disposable patch container) are
removed before the wrapped Conflict is returned, leaving volumes,
containers and registry rows exactly as before the call. -/
theorem createServer_all_or_nothing :
    (∀ (w : World) (req : CreateServerRequest),
      w.docker.volumeCreateFails = false →
      w.docker.volumes.contains ("mc-server-" ++ ("uuid-" ++ toString w.nextUuid)) = false →
      w.docker.images.contains "itzg/minecraft-server:latest" = false →
      w.docker.pullFails = true →
      w.docker.volumeRemoveFails = false →
      (createServer w req).2.isOk = false ∧
        (createServer w req).1.docker.volumes = w.docker.volumes ∧
        (createServer w req).1.docker.containers = w.docker.containers ∧
        (createServer w req).1.db.servers = w.db.servers) ∧
    (∀ (w : World) (req : CreateServerRequest) (p : ProxyServer),
      w.docker.volumeCreateFails = false →
      w.docker.volumes.contains ("mc-server-" ++ ("uuid-" ++ toString w.nextUuid)) = false →
      w.docker.pullFails = false →
      findProxyByID w.db SingleProxyID = some p →
      w.docker.containerCreateFails = true →
      w.docker.volumeRemoveFails = false →
      (createServer w req).2.isOk = false ∧
        (createServer w req).1.docker.volumes = w.docker.volumes ∧
        (createServer w req).1.docker.containers = w.docker.containers ∧
        (createServer w req).1.db.servers = w.db.servers) ∧
    (∀ (w : World) (req : CreateServerRequest) (p : ProxyServer),
      w.docker.volumeCreateFails = false →
      w.docker.volumes.contains ("mc-server-" ++ ("uuid-" ++ toString w.nextUuid)) = false →
      w.docker.images.contains "itzg/minecraft-server:latest" = true →
      w.docker.images.contains "alpine:latest" = true →
      findProxyByID w.db SingleProxyID = some p →
      w.docker.containerCreateFails = false →
      w.docker.containerStartFails = false →
      w.docker.waitFails = false →
      w.docker.containerRemoveFails = false →
      w.docker.volumeRemoveFails = false →
      w.db.servers.any
        (fun r => r.id == ("uuid-" ++ toString w.nextUuid) || r.name == req.name) = true →
      (createServer w req).2 =
          .error (.wrap "failed to save server to database"
            (.conflict "UNIQUE constraint failed")) ∧
        (createServer w req).1.docker.volumes = w.docker.volumes ∧
        (createServer w req).1.docker.containers = w.docker.containers ∧
        (createServer w req).1.db.servers = w.db.servers) :=
  ⟨fun w req h1 h2 h3 h4 h5 => createServer_rollback_pull_fail w req h1 h2 h3 h4 h5,
   fun w req p h1 h2 h3 h4 h5 h6 => createServer_rollback_create_fail w req p h1 h2 h3 h4 h5 h6,
   fun w req p h1 h2 h3 h4 h5 h6 h7 h8 h9 h10 h11 =>
     createServer_rollback_conflict w req p h1 h2 h3 h4 h5 h6 h7 h8 h9 h10 h11⟩

/-- C7 witness: the three failure scenarios at concrete states — empty
state with failing pulls, steady state with failing container creation,
and a duplicate-name create against the steady state — each roll back to
the original volumes, containers and rows. -/
theorem createServer_all_or_nothing_witness :
    ((createServer emptyPullFailWorld alphaReq).2.isOk = false ∧
      (createServer emptyPullFailWorld alphaReq).1.docker.volumes =
        emptyPullFailWorld.docker.volumes ∧
      (createServer emptyPullFailWorld alphaReq).1.docker.containers =
        emptyPullFailWorld.docker.containers ∧
      (createServer emptyPullFailWorld alphaReq).1.db.servers =
        emptyPullFailWorld.db.servers) ∧
    ((createServer createFailWorld alphaReq).2.isOk = false ∧
      (createServer createFailWorld alphaReq).1.docker.volumes =
        createFailWorld.docker.volumes ∧
      (createServer createFailWorld alphaReq).1.docker.containers =
        createFailWorld.docker.containers ∧
      (createServer createFailWorld alphaReq).1.db.servers = createFailWorld.db.servers) ∧
    ((createServer conflictWorld alphaReq).2 =
        .error (.wrap "failed to save server to database"
          (.conflict "UNIQUE constraint failed")) ∧
      (createServer conflictWorld alphaReq).1.docker.volumes =
        conflictWorld.docker.volumes ∧
      (createServer conflictWorld alphaReq).1.docker.containers =
        conflictWorld.docker.containers ∧
      (createServer conflictWorld alphaReq).1.db.servers = conflictWorld.db.servers) :=
  ⟨createServer_all_or_nothing.1 emptyPullFailWorld alphaReq rfl rfl rfl rfl rfl,
   createServer_all_or_nothing.2.1 createFailWorld alphaReq proxyRow rfl rfl rfl rfl rfl rfl,
   createServer_all_or_nothing.2.2 conflictWorld alphaReq proxyRow rfl rfl rfl rfl rfl rfl rfl
     rfl rfl rfl (by decide)⟩

theorem map_core_updateByID (l : List DockerContainer) (cid : String)
    (f : DockerContainer → DockerContainer)
    (hf : ∀ c, (f c).id = c.id ∧ (f c).running = c.running) :
    (updateByID l cid f).map (fun c => (c.id, c.running)) =
      l.map (fun c => (c.id, c.running)) := by
  induction l with
  | nil => rfl
  | cons c cs ih =>
    by_cases h : (c.id == cid) = true
    · simp [updateByID, h, (hf c).1, (hf c).2]
    · simp only [Bool.not_eq_true] at h
      simp [updateByID, h, ih]

theorem ensureNetwork_preserves (w : World) (n : String) :
    (ensureNetwork w n).1.db = w.db ∧
      (ensureNetwork w n).1.docker.volumes = w.docker.volumes ∧
      (ensureNetwork w n).1.docker.containers = w.docker.containers := by
  unfold ensureNetwork networkList networkCreate
  by_cases hl : w.docker.networkListFails = true
  · simp [hl]
  · simp only [Bool.not_eq_true] at hl
    simp only [hl, Bool.false_eq_true, if_false]
    by_cases hc : w.docker.networks.contains n = true
    · rw [if_pos hc]
      exact ⟨rfl, rfl, rfl⟩
    · rw [if_neg hc]
      by_cases hcf : w.docker.networkCreateFails = true
      · simp [hcf]
      · simp only [Bool.not_eq_true] at hcf
        simp [hcf, World.emit]

theorem networkConnect_preserves (w : World) (n cid : String) (al : List String) :
    (networkConnect w n cid al).1.db = w.db ∧
      (networkConnect w n cid al).1.docker.volumes = w.docker.volumes ∧
      (networkConnect w n cid al).1.docker.containers.map (fun c => (c.id, c.running)) =
        w.docker.containers.map (fun c => (c.id, c.running)) := by
  unfold networkConnect
  by_cases h1 : w.docker.networkConnectFails = true
  · simp [h1]
  · simp only [Bool.not_eq_true] at h1
    simp only [h1, Bool.false_eq_true, if_false]
    by_cases h2 : w.docker.networks.contains n = true
    · simp only [h2, not_true_eq_false, if_false]
      by_cases h3 : (findContainer w cid).isSome = true
      · simp only [h3, if_true, updateContainer, World.emit]
        refine ⟨by trivial, by trivial, ?_⟩
        exact map_core_updateByID _ _ _ (fun c => ⟨rfl, rfl⟩)
      · simp only [Bool.not_eq_true] at h3
        simp [h3]
    · simp only [Bool.not_eq_true] at h2
      have hmem : ¬ n ∈ w.docker.networks := by
        intro hm
        rw [List.contains_eq_any_beq, List.any_eq_false] at h2
        simpa using h2 n hm
      simp [hmem]

theorem connectServerToProxy_preserves (w : World) (s : MinecraftServer) :
    (connectServerToProxy w s).1.db = w.db ∧
      (connectServerToProxy w s).1.docker.volumes = w.docker.volumes ∧
      (connectServerToProxy w s).1.docker.containers.map (fun c => (c.id, c.running)) =
        w.docker.containers.map (fun c => (c.id, c.running)) := by
  unfold connectServerToProxy
  rcases hen : ensureNetwork w MinecraftNetworkName with ⟨w1, r1⟩
  have hp1 := ensureNetwork_preserves w MinecraftNetworkName
  rw [hen] at hp1
  cases r1 with
  | error e =>
    dsimp only
    exact ⟨hp1.1, hp1.2.1, by rw [hp1.2.2]⟩
  | ok u =>
    dsimp only
    cases containerInspect w1 s.containerID with
    | error e =>
      dsimp only
      exact ⟨hp1.1, hp1.2.1, by rw [hp1.2.2]⟩
    | ok info =>
      dsimp only
      by_cases h : (info.networks.any (fun nc => nc.1 == MinecraftNetworkName)) = true
      · simp only [h, if_true]
        exact ⟨hp1.1, hp1.2.1, by rw [hp1.2.2]⟩
      · simp only [Bool.not_eq_true] at h
        simp only [h, Bool.false_eq_true, if_false]
        have hp2 := networkConnect_preserves w1 MinecraftNetworkName s.containerID [s.name]
        exact ⟨hp2.1.trans hp1.1, hp2.2.1.trans hp1.2.1,
          hp2.2.2.trans (by rw [hp1.2.2])⟩

theorem writeConfigToContainer_preserves (w : World) (cid config : String) :
    (writeConfigToContainer w cid config).1.db = w.db ∧
      (writeConfigToContainer w cid config).1.docker.volumes = w.docker.volumes ∧
      (writeConfigToContainer w cid config).1.docker.containers.map
          (fun c => (c.id, c.running)) =
        w.docker.containers.map (fun c => (c.id, c.running)) := by
  unfold writeConfigToContainer
  cases findContainer w cid with
  | none => exact ⟨rfl, rfl, rfl⟩
  | some c =>
    dsimp only
    by_cases h1 : c.running = true
    · simp only [h1, not_true_eq_false, if_false]
      by_cases h2 : w.docker.execFails = true
      · simp [h2]
      · simp only [Bool.not_eq_true] at h2
        simp only [h2, Bool.false_eq_true, if_false, updateContainer, World.emit]
        refine ⟨by trivial, by trivial, ?_⟩
        exact map_core_updateByID _ _ _ (fun c0 => ⟨rfl, rfl⟩)
    · simp only [Bool.not_eq_true] at h1
      simp [h1]

theorem regenerateProxyConfig_preserves (w : World) :
    (regenerateProxyConfig w).1.db = w.db ∧
      (regenerateProxyConfig w).1.docker.volumes = w.docker.volumes ∧
      (regenerateProxyConfig w).1.docker.containers.map (fun c => (c.id, c.running)) =
        w.docker.containers.map (fun c => (c.id, c.running)) := by
  unfold regenerateProxyConfig
  cases proxyRepoFindByID w.db SingleProxyID with
  | error e => exact ⟨rfl, rfl, rfl⟩
  | ok proxy =>
    dsimp only [serverRepoFindAll]
    cases hdef : (if proxy.defaultServerID ≠ "" then
        match serverRepoFindByID w.db proxy.defaultServerID with
        | .error e => Except.error e
        | .ok server => Except.ok server.name
      else Except.ok "") with
    | error e => exact ⟨rfl, rfl, rfl⟩
    | ok defaultServerName =>
      dsimp only
      rcases hwc : writeConfigToContainer w proxy.containerID
          (generateVelocityConfig w.db.servers defaultServerName) with ⟨w1, r⟩
      have hp := writeConfigToContainer_preserves w proxy.containerID
        (generateVelocityConfig w.db.servers defaultServerName)
      rw [hwc] at hp
      cases r with
      | error e => exact hp
      | ok u => exact hp

/-- The post-creation block leaves the registry, the volumes, and every
container's identity and running state untouched when the proxy row
exists (its three steps only add network endpoints and write the config
file; every failure is swallowed). -/
theorem afterCreateSteps_db (w : World) (s : MinecraftServer)
    (hp : (findProxyByID w.db SingleProxyID).isSome = true) :
    (afterCreateSteps w s).db = w.db := by
  obtain ⟨p, hps⟩ := Option.isSome_iff_exists.mp hp
  have heq : ensureProxyExists w = (w, .ok p) := by
    unfold ensureProxyExists proxyRepoFindByID
    rw [hps]
  unfold afterCreateSteps
  rw [heq]
  dsimp only
  rcases hco : connectServerToProxy w s with ⟨w8, r8⟩
  have hc := connectServerToProxy_preserves w s
  rw [hco] at hc
  cases r8 with
  | error e => exact hc.1
  | ok u =>
    dsimp only
    exact (regenerateProxyConfig_preserves w8).1.trans hc.1

theorem afterCreateSteps_volumes (w : World) (s : MinecraftServer)
    (hp : (findProxyByID w.db SingleProxyID).isSome = true) :
    (afterCreateSteps w s).docker.volumes = w.docker.volumes := by
  obtain ⟨p, hps⟩ := Option.isSome_iff_exists.mp hp
  have heq : ensureProxyExists w = (w, .ok p) := by
    unfold ensureProxyExists proxyRepoFindByID
    rw [hps]
  unfold afterCreateSteps
  rw [heq]
  dsimp only
  rcases hco : connectServerToProxy w s with ⟨w8, r8⟩
  have hc := connectServerToProxy_preserves w s
  rw [hco] at hc
  cases r8 with
  | error e => exact hc.2.1
  | ok u =>
    dsimp only
    exact (regenerateProxyConfig_preserves w8).2.1.trans hc.2.1

theorem afterCreateSteps_ctrCore (w : World) (s : MinecraftServer)
    (hp : (findProxyByID w.db SingleProxyID).isSome = true) :
    (afterCreateSteps w s).docker.containers.map (fun c => (c.id, c.running)) =
      w.docker.containers.map (fun c => (c.id, c.running)) := by
  obtain ⟨p, hps⟩ := Option.isSome_iff_exists.mp hp
  have heq : ensureProxyExists w = (w, .ok p) := by
    unfold ensureProxyExists proxyRepoFindByID
    rw [hps]
  unfold afterCreateSteps
  rw [heq]
  dsimp only
  rcases hco : connectServerToProxy w s with ⟨w8, r8⟩
  have hc := connectServerToProxy_preserves w s
  rw [hco] at hc
  cases r8 with
  | error e => exact hc.2.2
  | ok u =>
    dsimp only
    exact (regenerateProxyConfig_preserves w8).2.2.trans hc.2.2

/-- C8 counterexample: the patch-file step fails (alpine pull fails
while the proxy exists); `CreateServer` does not return the instance —
it fails, removes the just-created container and volume, and persists no
row, so the patch step is not best-effort. -/
theorem createServer_patch_fail_counterexample :
    (createServer patchFailWorld alphaReq).2.isOk = false ∧
      (createServer patchFailWorld alphaReq).1.docker.containers = [proxyCtr] ∧
      (createServer patchFailWorld alphaReq).1.docker.volumes = ["mc-proxy-main"] ∧
      (createServer patchFailWorld alphaReq).1.db.servers = [] :=
  ⟨by decide, by decide, by decide, by decide⟩

/-- Steady state in which both post-creation reconciler steps fail: the
network connect call fails and the in-container config write exits
non-zero. -/
def postFailWorld : World :=
  { readyWorld with
    docker := { readyWorld.docker with networkConnectFails := true, execFails := true } }

/-- C8 amended: of the three post-creation steps only the connect and
regenerate steps are best-effort — whatever the outcome of the network
connect and of the config write (their failure flags and the rest of the
runtime are unconstrained here), `CreateServer` still returns the
created instance, its row is appended to the registry, its volume is
present, and its container exists (stopped), nothing having been
unwound.  The patch-file step is not best-effort: it runs before the row
is persisted and its failure rolls back container and volume (see the
counterexample). -/
theorem createServer_post_steps_best_effort (w : World) (req : CreateServerRequest)
    (p : ProxyServer)
    (h1 : w.docker.volumeCreateFails = false)
    (h2 : w.docker.volumes.contains ("mc-server-" ++ ("uuid-" ++ toString w.nextUuid)) = false)
    (himg : w.docker.images.contains "itzg/minecraft-server:latest" = true)
    (halp : w.docker.images.contains "alpine:latest" = true)
    (hproxy : findProxyByID w.db SingleProxyID = some p)
    (hcc : w.docker.containerCreateFails = false)
    (hcs : w.docker.containerStartFails = false)
    (hwt : w.docker.waitFails = false)
    (hcr : w.docker.containerRemoveFails = false)
    (hnoconf : w.db.servers.any
      (fun r => r.id == ("uuid-" ++ toString w.nextUuid) || r.name == req.name) = false) :
    ∃ s, (createServer w req).2 = .ok s ∧ s.name = req.name ∧
      (createServer w req).1.db.servers = w.db.servers ++ [s] ∧
      (createServer w req).1.docker.volumes =
        w.docker.volumes ++ ["mc-server-" ++ ("uuid-" ++ toString w.nextUuid)] ∧
      (createServer w req).1.docker.containers.map (fun c => (c.id, c.running)) =
        ("ctr-" ++ toString w.docker.nextCtr, false) ::
          w.docker.containers.map (fun c => (c.id, c.running)) := by
  have hfp : w.db.proxies.find? (fun r => r.id == SingleProxyID) = some p := hproxy
  simp only [createServer, volumeCreate, pullImage, containerCreate, containerStart,
    containerWait, containerRemove, createBungeeCordPatchFileInVolume, serverRepoCreate,
    findContainer, updateContainer, updateByID, removeByID, ensureProxyExists,
    proxyRepoFindByID, World.emit, List.find?,
    h1, h2, himg, halp, hproxy, hcc, hcs, hwt, hcr, hnoconf,
    beq_self_eq_true, Bool.false_eq_true, if_false, if_true, Option.isSome_some]
  refine ⟨_, rfl, rfl, ?_, ?_, ?_⟩
  · rw [afterCreateSteps_db] <;> simp [findProxyByID, hfp]
  · rw [afterCreateSteps_volumes] <;> simp [findProxyByID, hfp]
  · rw [afterCreateSteps_ctrCore] <;> simp [findProxyByID, hfp]

/-- C8 amended witness: with both post-step failure flags set, creation
still succeeds and leaves row, volume, and container in place. -/
theorem createServer_post_steps_best_effort_witness :
    ∃ s, (createServer postFailWorld alphaReq).2 = .ok s ∧ s.name = alphaReq.name ∧
      (createServer postFailWorld alphaReq).1.db.servers =
        postFailWorld.db.servers ++ [s] ∧
      (createServer postFailWorld alphaReq).1.docker.volumes =
        postFailWorld.docker.volumes ++
          ["mc-server-" ++ ("uuid-" ++ toString postFailWorld.nextUuid)] ∧
      (createServer postFailWorld alphaReq).1.docker.containers.map
          (fun c => (c.id, c.running)) =
        ("ctr-" ++ toString postFailWorld.docker.nextCtr, false) ::
          postFailWorld.docker.containers.map (fun c => (c.id, c.running)) :=
  createServer_post_steps_best_effort postFailWorld alphaReq proxyRow rfl rfl rfl rfl rfl rfl
    rfl rfl rfl rfl

/-- C10 counterexample: with no proxy row and a runtime whose image
pulls fail, backend-instance creation still succeeds (the failed
ensure-proxy calls are tolerated), yet no proxy row, volume or container
has been provisioned — so a successful creation from a proxy-less state
does not always provision the proxy. -/
theorem createServer_no_proxy_provision_counterexample :
    findProxyByID pullFailWorld.db SingleProxyID = none ∧
      (createServer pullFailWorld alphaReq).2.isOk = true ∧
      (createServer pullFailWorld alphaReq).1.db.proxies = [] ∧
      (createServer pullFailWorld alphaReq).1.docker.containers.map (fun c => c.name) =
        ["mc-server-uuid-0"] ∧
      (createServer pullFailWorld alphaReq).1.docker.volumes = ["mc-server-uuid-0"] :=
  ⟨rfl, by decide, by decide, by decide, by decide⟩

theorem server_volume_ne_proxy_volume (s : String) :
    ("mc-server-" ++ s) ≠ "mc-proxy-main" := by
  intro h
  have hd : ("mc-server-" ++ s).data = "mc-proxy-main".data := congrArg String.data h
  rw [String.data_append] at hd
  simp at hd

theorem contains_append_singleton_false (l : List String) (v y : String)
    (h : l.contains y = false) (hne : v ≠ y) :
    (l ++ [v]).contains y = false := by
  rw [List.contains_eq_any_beq] at h ⊢
  rw [List.any_eq_false] at h ⊢
  intro x hx
  rcases List.mem_append.mp hx with hx1 | hx2
  · exact h x hx1
  · rw [List.mem_singleton] at hx2
    subst hx2
    simp [beq_iff_eq]
    exact fun he => hne he.symm

/-- A fresh host: empty registries and runtime, images cached locally. -/
def freshWorld : World :=
  { baseWorld with
    docker := { baseDocker with
      images := ["itzg/minecraft-server:latest", "itzg/bungeecord:latest", "alpine:latest"] } }

/-- C10 amended: `CreateServer` invokes the ensure-proxy operation, not
a mere probe: from any state with no proxy row in which the
proxy-provisioning runtime operations succeed, a successful
backend-instance creation also provisions, persists and starts the
singleton proxy — afterwards the proxy row is persisted with state
Running, the proxy volume exists, and the proxy container is running
(if proxy provisioning fails, creation still succeeds without a proxy —
see the counterexample). -/
theorem createServer_provisions_proxy (w : World) (req : CreateServerRequest)
    (hnop : findProxyByID w.db SingleProxyID = none)
    (h1 : w.docker.volumeCreateFails = false)
    (h2 : w.docker.volumes.contains ("mc-server-" ++ ("uuid-" ++ toString w.nextUuid)) = false)
    (h2p : w.docker.volumes.contains "mc-proxy-main" = false)
    (himg : w.docker.images.contains "itzg/minecraft-server:latest" = true)
    (hvel : w.docker.images.contains "itzg/bungeecord:latest" = true)
    (halp : w.docker.images.contains "alpine:latest" = true)
    (hnl : w.docker.networkListFails = false)
    (hncf : w.docker.networkCreateFails = false)
    (hnet : w.docker.networks.contains "minecraft-network" = false)
    (hcc : w.docker.containerCreateFails = false)
    (hcs : w.docker.containerStartFails = false)
    (hwt : w.docker.waitFails = false)
    (hcr : w.docker.containerRemoveFails = false)
    (hnoconf : w.db.servers.any
      (fun r => r.id == ("uuid-" ++ toString w.nextUuid) || r.name == req.name) = false) :
    (createServer w req).2.isOk = true ∧
      (createServer w req).1.db.proxies =
        w.db.proxies ++
          [{ id := SingleProxyID, name := "Main Proxy",
             containerID := "ctr-" ++ toString w.docker.nextCtr, volumeID := "mc-proxy-main",
             defaultServerID := "", status := .running, port := DefaultProxyPort }] ∧
      (createServer w req).1.docker.volumes.contains "mc-proxy-main" = true ∧
      (createServer w req).1.docker.containers.map (fun c => (c.id, c.running)) =
        ("ctr-" ++ toString (w.docker.nextCtr + 1), false) ::
          ("ctr-" ++ toString w.docker.nextCtr, true) ::
            w.docker.containers.map (fun c => (c.id, c.running)) := by
  have hnop' : w.db.proxies.find? (fun r => r.id == SingleProxyID) = none := hnop
  have hsvne : ("mc-server-" ++ ("uuid-" ++ toString w.nextUuid)) ≠ "mc-proxy-main" :=
    server_volume_ne_proxy_volume _
  have hc2 : (w.docker.volumes ++
      ["mc-server-" ++ ("uuid-" ++ toString w.nextUuid)]).contains "mc-proxy-main" = false :=
    contains_append_singleton_false _ _ _ h2p hsvne
  have hnone : ∀ r ∈ w.db.proxies, (r.id == SingleProxyID) = false := by
    intro r hr
    have := List.find?_eq_none.mp hnop' r hr
    simpa using this
  have hany : w.db.proxies.any (fun r => r.id == SingleProxyID) = false :=
    List.any_eq_false.mpr (fun r hr => by simp [hnone r hr])
  have hfind2 : (w.db.proxies ++
        [({ id := SingleProxyID, name := "Main Proxy",
            containerID := "ctr-" ++ toString w.docker.nextCtr, volumeID := "mc-proxy-main",
            defaultServerID := "", status := .creating,
            port := DefaultProxyPort } : ProxyServer)]).find?
        (fun r => r.id == SingleProxyID) =
      some ({ id := SingleProxyID, name := "Main Proxy",
              containerID := "ctr-" ++ toString w.docker.nextCtr, volumeID := "mc-proxy-main",
              defaultServerID := "", status := .creating,
              port := DefaultProxyPort } : ProxyServer) := by
    rw [find?_append_of_none _ _ _ hnop']
    simp [List.find?]
  have hmap : w.db.proxies.map
        (fun r => if r.id == SingleProxyID then
          ({ id := SingleProxyID, name := "Main Proxy",
             containerID := "ctr-" ++ toString w.docker.nextCtr, volumeID := "mc-proxy-main",
             defaultServerID := "", status := .running,
             port := DefaultProxyPort } : ProxyServer)
          else r) = w.db.proxies := by
    conv_rhs => rw [← List.map_id w.db.proxies]
    apply List.map_congr_left
    intro r hr
    simp [hnone r hr]
  have hfind3 : (w.db.proxies ++
        [({ id := SingleProxyID, name := "Main Proxy",
            containerID := "ctr-" ++ toString w.docker.nextCtr, volumeID := "mc-proxy-main",
            defaultServerID := "", status := .running,
            port := DefaultProxyPort } : ProxyServer)]).find?
        (fun r => r.id == SingleProxyID) =
      some ({ id := SingleProxyID, name := "Main Proxy",
              containerID := "ctr-" ++ toString w.docker.nextCtr, volumeID := "mc-proxy-main",
              defaultServerID := "", status := .running,
              port := DefaultProxyPort } : ProxyServer) := by
    rw [find?_append_of_none _ _ _ hnop']
    simp [List.find?]
  simp only [createServer, volumeCreate, pullImage, containerCreate, containerStart,
    containerWait, containerRemove, createBungeeCordPatchFileInVolume, serverRepoCreate,
    ensureProxyExists, createProxy, ensureNetwork, networkList, networkCreate, startProxy,
    proxyRepoFindByID, proxyRepoCreate, proxyRepoUpdate, findProxyByID, findContainer,
    updateContainer, updateByID, removeByID, World.emit, List.find?, List.map_append,
    List.map_cons, List.map_nil, VelocityImage, MinecraftNetworkName,
    hnop', h1, h2, h2p, hc2, himg, hvel, halp, hnl, hncf, hnet, hcc, hcs, hwt, hcr, hnoconf,
    hany, hfind2, hmap, hfind3,
    beq_self_eq_true, Bool.false_eq_true, if_false, if_true, Option.isSome_some]
  refine ⟨?_, ?_, ?_, ?_⟩
  · rfl
  · rw [afterCreateSteps_db] <;> simp [findProxyByID, hfind3, hmap]
  · rw [afterCreateSteps_volumes] <;> simp [findProxyByID, hfind3, hmap]
  · rw [afterCreateSteps_ctrCore] <;> simp [findProxyByID, hfind3, hmap]

/-- C10 amended witness: on a fresh host with cached images, creating
the first backend instance also provisions, persists and starts the
proxy. -/
theorem createServer_provisions_proxy_witness :
    (createServer freshWorld alphaReq).2.isOk = true ∧
      (createServer freshWorld alphaReq).1.db.proxies =
        freshWorld.db.proxies ++
          [{ id := SingleProxyID, name := "Main Proxy",
             containerID := "ctr-" ++ toString freshWorld.docker.nextCtr,
             volumeID := "mc-proxy-main", defaultServerID := "", status := .running,
             port := DefaultProxyPort }] ∧
      (createServer freshWorld alphaReq).1.docker.volumes.contains "mc-proxy-main" = true ∧
      (createServer freshWorld alphaReq).1.docker.containers.map (fun c => (c.id, c.running)) =
        ("ctr-" ++ toString (freshWorld.docker.nextCtr + 1), false) ::
          ("ctr-" ++ toString freshWorld.docker.nextCtr, true) ::
            freshWorld.docker.containers.map (fun c => (c.id, c.running)) :=
  createServer_provisions_proxy freshWorld alphaReq rfl rfl rfl rfl rfl rfl rfl rfl rfl rfl
    rfl rfl rfl rfl rfl

end DockerMC
